import Mathlib

/-!
Verification development for the KaraokeVerse repository: a shallow
embedding, in Lean 4, of the application-flow state machine, the UI panel
registry, the controller/mouse input routing, the microphone entity and
the REST profile/song controllers, together with theorems settling the
behavioural claims about them.

Sources embedded (TypeScript):
- `src/ui/UISystem.ts` (`UISystem`: panels, show/hide, raycast, trigger)
- `src/ui/UIController.ts` (`UIController.processControllerInput`)
- `src/ui/ProfileInputPanel.ts` (`validateName`, `handleSubmit`)
- `src/AppFlowController.ts` (states, overlays, retry thunk, transitions,
  desktop mouse handlers)
- `src/entities/Microphone.ts` (`MicrophoneEntity`)
- `server/src/controllers/profileController.ts` and `songsController.ts`

Conventions: machine state that TypeScript mutates in place is passed
explicitly; `async` operations take their settled outcome as an argument;
external geometry (three.js `Raycaster`) is abstracted by the distance
function of the ray against each button mesh, with `intersectObjects`
returning the hits sorted by ascending distance, as three.js documents.
Buttons are identified by their `id` string, which is unique across the
panels the application registers.
-/

namespace KV

/-- The four panel types registered with the UI system
(`UIPanelType` in UISystem.ts). -/
inductive UIPanelType where
  | profileInputP
  | roomSelectionP
  | songSearchP
  | keyboardP
deriving DecidableEq, Repr

/-- A UI button (`UIButton` in UISystem.ts); the mesh, material and
callback are represented by the button id, which names the mesh via
`userData.buttonId` and the bound callback. -/
structure UIButton where
  id : String
  isHovered : Bool
  isActive : Bool
deriving DecidableEq, Repr

/-- A UI panel (`UIPanel` in UISystem.ts): its button list and
visibility flag. -/
structure UIPanel where
  buttons : List UIButton
  isVisible : Bool
deriving DecidableEq, Repr

/-- The `Map<UIPanelType, UIPanel>` held by `UISystem`; the key type is
finite so the map is a record of four optional entries. -/
structure PanelMap where
  profileInputP : Option UIPanel
  roomSelectionP : Option UIPanel
  songSearchP : Option UIPanel
  keyboardP : Option UIPanel
deriving DecidableEq, Repr

/-- Map lookup (`this.panels.get(type)`). -/
def PanelMap.get (m : PanelMap) : UIPanelType → Option UIPanel
  | .profileInputP => m.profileInputP
  | .roomSelectionP => m.roomSelectionP
  | .songSearchP => m.songSearchP
  | .keyboardP => m.keyboardP

/-- Map update (`this.panels.set(type, panel)`). -/
def PanelMap.set (m : PanelMap) : UIPanelType → Option UIPanel → PanelMap
  | .profileInputP, v => { m with profileInputP := v }
  | .roomSelectionP, v => { m with roomSelectionP := v }
  | .songSearchP, v => { m with songSearchP := v }
  | .keyboardP, v => { m with keyboardP := v }

/-- Applies an update to every registered panel (the effect of a loop
over the map's entries that rewrites each one). -/
def PanelMap.mapPanels (m : PanelMap) (f : UIPanel → UIPanel) : PanelMap :=
  { profileInputP := m.profileInputP.map f
    roomSelectionP := m.roomSelectionP.map f
    songSearchP := m.songSearchP.map f
    keyboardP := m.keyboardP.map f }

/-- Iteration order of the panel map: the order in which
`AppFlowController`'s constructor creates the panels (profile input,
room selection, song search, keyboard). -/
def panelIterOrder : List UIPanelType :=
  [.profileInputP, .roomSelectionP, .songSearchP, .keyboardP]

/-- The mutable state of `UISystem`: the panel map, the hovered button
(kept by id) and the active panel marker. -/
structure UISystem where
  panels : PanelMap
  hoveredButton : Option String
  activePanel : Option UIPanelType
deriving DecidableEq, Repr

namespace UISystem

/-- Embeds `UISystem.showPanel`: sets the panel visible and records it
as active; no-op when the panel is not registered. -/
def showPanel (s : UISystem) (t : UIPanelType) : UISystem :=
  match s.panels.get t with
  | none => s
  | some p =>
    { s with
      panels := s.panels.set t (some { p with isVisible := true }),
      activePanel := some t }

/-- Embeds `UISystem.hidePanel`: sets the panel invisible and clears the
active marker when it pointed at this panel; no-op when the panel is not
registered. -/
def hidePanel (s : UISystem) (t : UIPanelType) : UISystem :=
  match s.panels.get t with
  | none => s
  | some p =>
    { s with
      panels := s.panels.set t (some { p with isVisible := false }),
      activePanel := if s.activePanel = some t then none else s.activePanel }

/-- Embeds `UISystem.hideAllPanels`: `hidePanel` on every key of the map
(iterating the map visits every registered panel; keys absent from the
map make `hidePanel` a no-op). -/
def hideAllPanels (s : UISystem) : UISystem :=
  panelIterOrder.foldl hidePanel s

/-- Embeds `UISystem.hasVisiblePanel`. -/
def hasVisiblePanel (s : UISystem) : Bool :=
  panelIterOrder.any fun t =>
    match s.panels.get t with
    | some p => p.isVisible
    | none => false

/-- Visibility of one panel type (reading `panel.isVisible`). -/
def panelVisible (s : UISystem) (t : UIPanelType) : Bool :=
  match s.panels.get t with
  | some p => p.isVisible
  | none => false

/-- The meshes collected by `handleRaycast`: every button of every
currently visible panel, in iteration order. -/
def visibleButtonIds (s : UISystem) : List String :=
  panelIterOrder.flatMap fun t =>
    match s.panels.get t with
    | some p => if p.isVisible then p.buttons.map (·.id) else []
    | none => []

/-- Sets the hover flag of the button with the given id
(`setButtonHover` on the referenced button object; button ids are
unique, so the update by id reaches exactly that button; the material
colour change is not modelled). -/
def setHoverById (s : UISystem) (bid : String) (h : Bool) : UISystem :=
  { s with
    panels := s.panels.mapPanels fun p =>
      { p with
        buttons := p.buttons.map fun b =>
          if b.id = bid then { b with isHovered := h } else b } }

/-- Sets the active flag of the button with the given id
(`handleTriggerPress` / `handleTriggerRelease` on the hovered button
object). -/
def setActiveById (s : UISystem) (bid : String) (a : Bool) : UISystem :=
  { s with
    panels := s.panels.mapPanels fun p =>
      { p with
        buttons := p.buttons.map fun b =>
          if b.id = bid then { b with isActive := a } else b } }

/-- Count of visible main panels (profile input, room selection, song
search); the keyboard and the loading/error overlays are excluded. -/
def mainPanelVisibleCount (s : UISystem) : Nat :=
  (if s.panelVisible .profileInputP then 1 else 0) +
  (if s.panelVisible .roomSelectionP then 1 else 0) +
  (if s.panelVisible .songSearchP then 1 else 0)

/-- The cross-panel button lookup inside `handleRaycast`: every panel
(visible or not) is scanned in iteration order for a button with the hit
mesh's id. -/
def findButtonById (s : UISystem) (bid : String) : Option UIButton :=
  panelIterOrder.findSome? fun t =>
    match s.panels.get t with
    | some p => p.buttons.find? fun b => b.id = bid
    | none => none

/-- Every button carrying the given id is unhovered in this state. -/
def hoverCleared (s : UISystem) (bid : String) : Prop :=
  ∀ t p, s.panels.get t = some p → ∀ b ∈ p.buttons, b.id = bid → b.isHovered = false

/-- Every button carrying the given id is hovered in this state. -/
def hoverSet (s : UISystem) (bid : String) : Prop :=
  ∀ t p, s.panels.get t = some p → ∀ b ∈ p.buttons, b.id = bid → b.isHovered = true

end UISystem

/-- A ray's intersection data against the button meshes: for each button
mesh id, `none` when the ray misses it, `some d` when it hits at
parameter distance `d` along the ray (three.js reports only hits in
front of the origin, so distances are positive). -/
abbrev RayHits : Type := String → Option ℚ

/-- The comparator of `Raycaster.intersectObjects`' ascending sort. -/
def distLE (a b : String × ℚ) : Prop := a.2 ≤ b.2

instance : DecidableRel distLE := fun a b => inferInstanceAs (Decidable (a.2 ≤ b.2))

instance : IsTotal (String × ℚ) distLE := ⟨fun a b => le_total a.2 b.2⟩

instance : IsTrans (String × ℚ) distLE := ⟨fun _ _ _ h1 h2 => le_trans h1 h2⟩

/-- Embeds `Raycaster.intersectObjects(buttonMeshes)`: the meshes the ray
hits, sorted by ascending distance (the three.js contract). -/
def intersectObjects (ids : List String) (dist : RayHits) : List (String × ℚ) :=
  (ids.filterMap fun i => (dist i).map fun d => (i, d)).insertionSort distLE

namespace UISystem

/-- Embeds `UISystem.handleRaycast`: collects the buttons of visible
panels, intersects the ray, resets the previous hover, and hovers and
returns the nearest hit button (`intersects[0]`); returns `none` with no
state change when no visible panel contributes a mesh. -/
def handleRaycast (s : UISystem) (dist : RayHits) : UISystem × Option UIButton :=
  let meshes := s.visibleButtonIds
  if meshes.isEmpty then (s, none)
  else
    let intersects := intersectObjects meshes dist
    let s1 :=
      match s.hoveredButton with
      | some hb => { s.setHoverById hb false with hoveredButton := none }
      | none => s
    match intersects.head? with
    | some hit =>
      match s1.findButtonById hit.1 with
      | some b =>
        ({ s1.setHoverById hit.1 true with hoveredButton := some hit.1 },
         some { b with isHovered := true })
      | none => (s1, none)
    | none => (s1, none)

/-- Embeds `UISystem.handleTriggerPress`: activates the hovered button
and invokes its callback; returns the updated state, whether a button
was activated, and the ids of the callbacks invoked. -/
def handleTriggerPress (s : UISystem) : UISystem × Bool × List String :=
  match s.hoveredButton with
  | some bid => (s.setActiveById bid true, true, [bid])
  | none => (s, false, [])

/-- Embeds `UISystem.handleTriggerRelease`: clears the active flag of
the hovered button when set. -/
def handleTriggerRelease (s : UISystem) : UISystem :=
  match s.hoveredButton with
  | some bid =>
    match s.findButtonById bid with
    | some b => if b.isActive then s.setActiveById bid false else s
    | none => s
  | none => s

end UISystem

/-- The `Map<XRInputSource, boolean>` of last-known trigger states, keyed
by input-source identity. -/
abbrev TriggerMap : Type := List (Nat × Bool)

/-- Map lookup with the `|| false` default
(`this.triggerStates.get(source) || false`). -/
def TriggerMap.get (m : TriggerMap) (sid : Nat) : Bool :=
  match m.find? (fun e => e.1 = sid) with
  | some e => e.2
  | none => false

/-- Map update (`this.triggerStates.set(source, pressed)`). -/
def TriggerMap.set (m : TriggerMap) (sid : Nat) (v : Bool) : TriggerMap :=
  if m.any (fun e => e.1 = sid) then
    m.map fun e => if e.1 = sid then (sid, v) else e
  else
    m ++ [(sid, v)]

/-- One XR input source as seen in one frame by
`UIController.processControllerInput`: its identity, whether its target
ray mode is tracked-pointer, whether a pose is available this frame, the
ray its pose casts (as intersection distances against the button
meshes), and its gamepad trigger state when a gamepad is attached. -/
structure XRSourceFrame where
  sid : Nat
  trackedPointer : Bool
  hasPose : Bool
  rayDist : RayHits
  gamepad : Option Bool

/-- Loop body of `UIController.processControllerInput`: scans the input
sources for the first tracked-pointer source with a pose, raycasts its
ray, fires `handleTriggerPress` on a rising trigger edge and
`handleTriggerRelease` on a falling edge, records the trigger state, and
stops (`break`). Returns the updated UI state and trigger map, the
source for which `handleTriggerPress` was invoked (if any), and the ids
of the button callbacks invoked. -/
def processSources (ui : UISystem) (tm : TriggerMap) :
    List XRSourceFrame → UISystem × TriggerMap × Option Nat × List String
  | [] => (ui, tm, none, [])
  | s :: rest =>
    if s.trackedPointer = false then processSources ui tm rest
    else if s.hasPose = false then processSources ui tm rest
    else
      let ui1 := (ui.handleRaycast s.rayDist).1
      match s.gamepad with
      | some pressed =>
        let was := tm.get s.sid
        let fired := pressed && !was
        let pr := if fired then ui1.handleTriggerPress else (ui1, false, [])
        let ui2 := pr.1
        let ui3 := if !pressed && was then ui2.handleTriggerRelease else ui2
        (ui3, tm.set s.sid pressed, if fired then some s.sid else none, pr.2.2)
      | none => (ui1, tm, none, [])

/-- Embeds `UIController.processControllerInput`: when no panel is
visible the ray is hidden and nothing is processed; otherwise the
sources are scanned as in `processSources`. -/
def processControllerInput (ui : UISystem) (tm : TriggerMap)
    (sources : List XRSourceFrame) :
    UISystem × TriggerMap × Option Nat × List String :=
  if ui.hasVisiblePanel = false then (ui, tm, none, [])
  else processSources ui tm sources

/-- Runs `processControllerInput` over a sequence of frames, returning
per frame the source for which `handleTriggerPress` was invoked. -/
def runCtl (ui : UISystem) (tm : TriggerMap) :
    List (List XRSourceFrame) → List (Option Nat)
  | [] => []
  | fs :: rest =>
    let r := processControllerInput ui tm fs
    r.2.2.1 :: runCtl r.1 r.2.1 rest

/-- How many frames of a run invoked `handleTriggerPress` for the given
source. -/
def countActivations (sid : Nat) (trace : List (Option Nat)) : Nat :=
  (trace.filter fun a => a = some sid).length

/-- The application states of `AppFlowController` (`AppState`). -/
inductive AppState where
  | initializing
  | profileInput
  | roomSelection
  | loadingRoom
  | inRoom
  | songSearch
  | playingSong
  | error
deriving DecidableEq, Repr

/-- The zero-argument retry thunks `AppFlowController` stores in
`lastFailedAction`: each closure the code passes to `showError`,
identified by its captured parameters
(`() => this.handleProfileSubmit(name)`,
`() => this.handleRoomSelect(theme)`, `() => this.showSongSearch()`). -/
inductive RetryAction where
  | profileSubmit (name : String)
  | roomSelect (theme : String)
  | songSearchReload
deriving DecidableEq, Repr

/-- Settled outcome of an awaited service call: success, or rejection
with the thrown error's message. -/
inductive Outcome where
  | ok
  | fail (msg : String)
deriving DecidableEq, Repr

/-- Whether an outcome is success. -/
def Outcome.isOk : Outcome → Bool
  | .ok => true
  | .fail _ => false

/-- The mutable state of `ProfileInputPanel` relevant to validation:
the typed display name and the inline validation error message. -/
structure ProfilePanelState where
  displayName : String
  errorMessage : String
deriving DecidableEq, Repr

/-- Embeds JavaScript `String.prototype.trim`: strips leading and
trailing whitespace (the repository's display names are ASCII, where JS
and Lean whitespace coincide). -/
def jsTrim (s : String) : String :=
  ⟨((s.data.dropWhile Char.isWhitespace).reverse.dropWhile
      Char.isWhitespace).reverse⟩

/-- Validation constant `NAME_MIN_LENGTH` of ProfileInputPanel.ts. -/
def NAME_MIN_LENGTH : Nat := 3

/-- Validation constant `NAME_MAX_LENGTH` of ProfileInputPanel.ts. -/
def NAME_MAX_LENGTH : Nat := 20

namespace ProfileInputPanel

/-- Embeds `ProfileInputPanel.validateName`: trims the display name,
checks the trimmed length against the 3..20 bounds, sets or clears the
inline error message and reports validity. -/
def validateName (p : ProfilePanelState) : ProfilePanelState × Bool :=
  let name := jsTrim p.displayName
  if name.length < NAME_MIN_LENGTH then
    ({ p with errorMessage := "Name must be at least 3 characters" }, false)
  else if name.length > NAME_MAX_LENGTH then
    ({ p with errorMessage := "Name must be at most 20 characters" }, false)
  else
    ({ p with errorMessage := "" }, true)

/-- Embeds `ProfileInputPanel.handleSubmit`: on validation failure the
error is redrawn and the submit callback is not invoked (`none`); on
success `onSubmit` receives the trimmed name. -/
def handleSubmit (p : ProfilePanelState) : ProfilePanelState × Option String :=
  let v := validateName p
  if v.2 then (v.1, some (jsTrim v.1.displayName)) else (v.1, none)

/-- Embeds `ProfileInputPanel.reset`. -/
def reset : ProfilePanelState := { displayName := "", errorMessage := "" }

end ProfileInputPanel

/-- The state of `AppFlowController` (with the scene manager and the
overlay objects it owns): the current app state, the UI system, the
visibility of the loading and error overlays, the stored retry thunk,
whether a room is loaded (`sceneManager.getCurrentRoom()`), the profile
input panel, and the video the scene manager is playing. -/
structure AppFlow where
  state : AppState
  ui : UISystem
  loadingVisible : Bool
  errorVisible : Bool
  errorMsg : String
  lastFailedAction : Option RetryAction
  roomLoaded : Bool
  profilePanel : ProfilePanelState
  currentVideo : Option String
deriving DecidableEq, Repr

namespace AppFlow

/-- Embeds `AppFlowController.showLoading` (overlay positioning is
geometry and not modelled). -/
def showLoading (a : AppFlow) : AppFlow := { a with loadingVisible := true }

/-- Embeds `AppFlowController.hideLoading`. -/
def hideLoading (a : AppFlow) : AppFlow := { a with loadingVisible := false }

/-- Embeds `AppFlowController.showError`: stores the retry thunk (or
null), shows the error overlay with the message, and enters the error
state. -/
def showError (a : AppFlow) (msg : String) (retry : Option RetryAction) : AppFlow :=
  { a with
    lastFailedAction := retry,
    errorVisible := true,
    errorMsg := msg,
    state := .error }

/-- Embeds `AppFlowController.showProfileInput`: set state, hide all
panels, reset the profile panel, show it. -/
def showProfileInput (a : AppFlow) : AppFlow :=
  let a1 := { a with state := AppState.profileInput }
  let a2 := { a1 with ui := a1.ui.hideAllPanels }
  let a3 := { a2 with profilePanel := ProfileInputPanel.reset }
  { a3 with ui := a3.ui.showPanel .profileInputP }

/-- Embeds `AppFlowController.showRoomSelection`: set state, hide all
panels, show the room selection panel. -/
def showRoomSelection (a : AppFlow) : AppFlow :=
  let a1 := { a with state := AppState.roomSelection }
  let a2 := { a1 with ui := a1.ui.hideAllPanels }
  { a2 with ui := a2.ui.showPanel .roomSelectionP }

/-- Embeds `AppFlowController.showSongSearch` with the settled outcome
of `songSearchPanel.loadSongs`: set state, hide all panels, show the
loading overlay; on success hide it and show the song search panel; on
failure hide it and show the error overlay with the reload thunk. -/
def showSongSearch (a : AppFlow) (songsOk : Bool) : AppFlow :=
  let a1 := { a with state := AppState.songSearch }
  let a2 := { a1 with ui := a1.ui.hideAllPanels }
  let a3 := a2.showLoading
  if songsOk then
    let a4 := a3.hideLoading
    { a4 with ui := a4.ui.showPanel .songSearchP }
  else
    (a3.hideLoading).showError "Failed to load songs. Please try again."
      (some .songSearchReload)

/-- Embeds `AppFlowController.handleProfileSubmit` with the settled
outcome of `profileService.createProfile`: show loading; on success hide
it and show room selection; on failure hide it and show the error
overlay with a resubmit thunk. -/
def handleProfileSubmit (a : AppFlow) (name : String) (outcome : Outcome) : AppFlow :=
  let a1 := a.showLoading
  match outcome with
  | .ok => (a1.hideLoading).showRoomSelection
  | .fail msg =>
    (a1.hideLoading).showError msg (some (.profileSubmit name))

/-- Embeds `AppFlowController.handleRoomSelect` with the settled outcome
of `sceneManager.loadRoom`: enter loading-room, hide all panels, show
loading; on success hide it and enter in-room with the room recorded as
loaded (the delayed `showSongSearch` runs from a separate timer); on
failure hide it and show the error overlay with a reselect thunk. -/
def handleRoomSelect (a : AppFlow) (theme : String) (outcome : Outcome) : AppFlow :=
  let a1 := { a with state := AppState.loadingRoom }
  let a2 := { a1 with ui := a1.ui.hideAllPanels }
  let a3 := a2.showLoading
  match outcome with
  | .ok =>
    let a4 := a3.hideLoading
    { a4 with state := AppState.inRoom, roomLoaded := true }
  | .fail msg =>
    (a3.hideLoading).showError msg (some (.roomSelect theme))

/-- Embeds `AppFlowController.handleSongSelect`: enter playing-song,
hide the song search panel, play the video. -/
def handleSongSelect (a : AppFlow) (youtubeId : String) : AppFlow :=
  let a1 := { a with state := AppState.playingSong }
  let a2 := { a1 with ui := a1.ui.hidePanel .songSearchP }
  { a2 with currentVideo := some youtubeId }

/-- Embeds `AppFlowController.handleStopSong`: stop the video and return
to the in-room state. -/
def handleStopSong (a : AppFlow) : AppFlow :=
  { a with currentVideo := none, state := AppState.inRoom }

/-- Embeds the dispatch of a stored retry thunk: invoking the closure
re-runs exactly the operation it captured, with the new settled
outcome. -/
def runRetryAction (a : AppFlow) (act : RetryAction) (outcome : Outcome) : AppFlow :=
  match act with
  | .profileSubmit name => a.handleProfileSubmit name outcome
  | .roomSelect theme => a.handleRoomSelect theme outcome
  | .songSearchReload => a.showSongSearch outcome.isOk

/-- Embeds `AppFlowController.handleErrorRetry`: awaits the stored thunk
when one exists; does nothing otherwise. -/
def handleErrorRetry (a : AppFlow) (outcome : Outcome) : AppFlow :=
  match a.lastFailedAction with
  | some act => a.runRetryAction act outcome
  | none => a

/-- Embeds `AppFlowController.handleErrorDismiss` (with the settled
outcome of the song reload that `showSongSearch` performs when a room is
loaded): hide the error overlay, then show song search when a room is
loaded, room selection otherwise. -/
def handleErrorDismiss (a : AppFlow) (songsOk : Bool) : AppFlow :=
  let a1 := { a with errorVisible := false }
  if a1.roomLoaded then a1.showSongSearch songsOk
  else a1.showRoomSelection

/-- The part of `ProfileInputPanel.handleSubmit` plus the wired
`onSubmit` callback: submitting the profile-input panel invokes
`handleProfileSubmit` (which issues the profile-create network call)
exactly when validation passed. Returns the resulting application state
and whether the network call was issued. -/
def submitProfileFlow (a : AppFlow) (outcome : Outcome) : AppFlow × Bool :=
  let sub := ProfileInputPanel.handleSubmit a.profilePanel
  let a1 := { a with profilePanel := sub.1 }
  match sub.2 with
  | some name => (a1.handleProfileSubmit name outcome, true)
  | none => (a1, false)

/-- Embeds the `onMouseClick` handler of
`AppFlowController.setupDesktopInput`: when some panel is visible, the
mouse ray is hit-tested via `UISystem.handleRaycast` and the hit
button's `onClick` is invoked. Returns the new state and the ids of the
invoked callbacks. -/
def onMouseClick (a : AppFlow) (dist : RayHits) : AppFlow × List String :=
  if a.ui.hasVisiblePanel = false then (a, [])
  else
    let r := a.ui.handleRaycast dist
    match r.2 with
    | some b => ({ a with ui := r.1 }, [b.id])
    | none => ({ a with ui := r.1 }, [])

/-- Embeds the `onMouseMove` handler of
`AppFlowController.setupDesktopInput`: hover feedback via
`UISystem.handleRaycast` when some panel is visible. -/
def onMouseMove (a : AppFlow) (dist : RayHits) : AppFlow :=
  if a.ui.hasVisiblePanel = false then a
  else { a with ui := (a.ui.handleRaycast dist).1 }

/-- One frame's input to `AppFlowController.update`: whether an XR
session, frame and reference space are all present, and the XR input
sources of the frame. -/
structure FrameInput where
  xrActive : Bool
  sources : List XRSourceFrame

/-- Embeds `AppFlowController.update` (UI input path): the loading
spinner animation is updated, then input processing is skipped entirely
while the loading overlay is visible; in XR mode the UI controller
processes the input sources (microphone grabbing is modelled separately
by `micStep`); in desktop mode `processDesktopInput` is an empty body
(mouse events arrive through `onMouseClick` / `onMouseMove`). Returns
the new app state, the UI controller's trigger map, and the ids of the
button callbacks invoked. -/
def update (a : AppFlow) (tm : TriggerMap) (inp : FrameInput) :
    AppFlow × TriggerMap × List String :=
  if a.loadingVisible then (a, tm, [])
  else if inp.xrActive then
    let r := processControllerInput a.ui tm inp.sources
    ({ a with ui := r.1 }, r.2.1, r.2.2.2)
  else
    (a, tm, [])

end AppFlow

/-- A concrete `AppFlow` state used by witnesses and counterexamples:
the application sits at the profile-input state with the profile panel
visible (its two buttons unhovered) while the loading overlay is shown,
as during the awaited `createProfile` call of `handleProfileSubmit`. -/
def pendingCreateFlow : AppFlow :=
  { state := .profileInput
    ui :=
      { panels :=
          { profileInputP := some
              { buttons :=
                  [ { id := "name-input", isHovered := false, isActive := false },
                    { id := "submit-name", isHovered := false, isActive := false } ],
                isVisible := true }
            roomSelectionP := some
              { buttons := [ { id := "room-anime", isHovered := false, isActive := false } ],
                isVisible := false }
            songSearchP := none
            keyboardP := none }
        hoveredButton := none
        activePanel := some .profileInputP }
    loadingVisible := true
    errorVisible := false
    errorMsg := ""
    lastFailedAction := none
    roomLoaded := false
    profilePanel := { displayName := "Alice", errorMessage := "" }
    currentVideo := none }

/-- A mouse ray that hits only the submit button, at distance 1. -/
def submitRay : RayHits :=
  fun i => if i = "submit-name" then some 1 else none

/-- A concrete XR input source frame holding its trigger pressed, aimed
at the submit button. -/
def heldSourceFrame : XRSourceFrame :=
  { sid := 3
    trackedPointer := true
    hasPose := true
    rayDist := submitRay
    gamepad := some true }

/-- A concrete error state: a profile-create failure has stored its
resubmit thunk and the error overlay is showing. -/
def errorStateFlow : AppFlow :=
  { pendingCreateFlow with
    state := .error
    loadingVisible := false
    errorVisible := true
    errorMsg := "Failed to create profile"
    lastFailedAction := some (.profileSubmit "Alice") }

/-- A 3D position with rational coordinates. -/
structure Vec3 where
  x : ℚ
  y : ℚ
  z : ℚ
deriving DecidableEq, Repr

/-- Squared distance between two positions (`Vector3.distanceTo`
compared against a bound is compared here on squares, avoiding the
square root). -/
def Vec3.distSq (a b : Vec3) : ℚ :=
  (a.x - b.x) ^ 2 + (a.y - b.y) ^ 2 + (a.z - b.z) ^ 2

/-- Colour constant `MICROPHONE_COLORS.body`. -/
def micBodyColor : String := "#2c3e50"

/-- Colour constant `MICROPHONE_COLORS.head`. -/
def micHeadColor : String := "#7f8c8d"

/-- Colour constant `MICROPHONE_COLORS.bodyGrabbed`. -/
def micBodyGrabbedColor : String := "#27ae60"

/-- Colour constant `MICROPHONE_COLORS.headGrabbed`. -/
def micHeadGrabbedColor : String := "#2ecc71"

/-- Constant `MICROPHONE_DIMENSIONS.grabDistance` (0.3 m). -/
def micGrabDistance : ℚ := 3 / 10

/-- The state of `MicrophoneEntity`: grab flag, grabbing controller
(by source identity), root object position, the recorded spawn
position, the original colours stored at construction, and the current
material colours and emissive settings. -/
structure MicrophoneEntity where
  isGrabbed : Bool
  grabbingController : Option Nat
  position : Vec3
  spawnPosition : Vec3
  originalBodyColor : String
  originalHeadColor : String
  bodyColor : String
  headColor : String
  bodyEmissive : String
  bodyEmissiveIntensity : ℚ
  headEmissive : String
  headEmissiveIntensity : ℚ
deriving DecidableEq, Repr

namespace MicrophoneEntity

/-- Embeds the `MicrophoneEntity` constructor: not grabbed, placed at
the (cloned) spawn position, materials at the theme colours with the
three.js default emissive. -/
def create (spawnPosition : Vec3) : MicrophoneEntity :=
  { isGrabbed := false
    grabbingController := none
    position := spawnPosition
    spawnPosition := spawnPosition
    originalBodyColor := micBodyColor
    originalHeadColor := micHeadColor
    bodyColor := micBodyColor
    headColor := micHeadColor
    bodyEmissive := "#000000"
    bodyEmissiveIntensity := 1
    headEmissive := "#000000"
    headEmissiveIntensity := 1 }

/-- Embeds `MicrophoneEntity.isWithinGrabRange`: distance from the root
object to the given position is at most `grabDistance` (stated on
squared distances). -/
def isWithinGrabRange (m : MicrophoneEntity) (p : Vec3) : Bool :=
  Vec3.distSq m.position p ≤ micGrabDistance ^ 2

/-- Embeds `MicrophoneEntity.grab`: early return when already grabbed;
otherwise records the grabbing controller and switches the materials to
the grabbed colours. -/
def grab (m : MicrophoneEntity) (controller : Option Nat) : MicrophoneEntity :=
  if m.isGrabbed then m
  else
    { m with
      isGrabbed := true
      grabbingController := controller
      bodyColor := micBodyGrabbedColor
      bodyEmissive := micBodyGrabbedColor
      bodyEmissiveIntensity := 3 / 10
      headColor := micHeadGrabbedColor
      headEmissive := micHeadGrabbedColor
      headEmissiveIntensity := 2 / 5 }

/-- Embeds `MicrophoneEntity.release`: early return when not grabbed;
otherwise clears the grab, restores the original colours, zeroes the
emissive and returns the root object to the spawn position. -/
def release (m : MicrophoneEntity) : MicrophoneEntity :=
  if m.isGrabbed = false then m
  else
    { m with
      isGrabbed := false
      grabbingController := none
      bodyColor := m.originalBodyColor
      bodyEmissive := "#000000"
      bodyEmissiveIntensity := 0
      headColor := m.originalHeadColor
      headEmissive := "#000000"
      headEmissiveIntensity := 0
      position := m.spawnPosition }

/-- Embeds `MicrophoneEntity.updatePosition`: follows the controller
while grabbed. -/
def updatePosition (m : MicrophoneEntity) (p : Vec3) : MicrophoneEntity :=
  if m.isGrabbed then { m with position := p } else m

/-- Embeds `MicrophoneEntity.isGrabbedBy`. -/
def isGrabbedBy (m : MicrophoneEntity) (controller : Nat) : Bool :=
  m.isGrabbed && m.grabbingController = some controller

end MicrophoneEntity

/-- Loop body of `AppFlowController.processMicrophoneInput` for one
input source: on a rising trigger edge an ungrabbed microphone within
range is grabbed by this source; on a falling edge the microphone is
released only when this source is the one grabbing it; while this
source grabs it, the microphone follows the controller position. -/
def micStep (m : MicrophoneEntity) (sid : Nat) (controllerPos : Vec3)
    (pressed was : Bool) : MicrophoneEntity :=
  let m1 :=
    if pressed && !was then
      if m.isGrabbed = false && m.isWithinGrabRange controllerPos then
        m.grab (some sid)
      else m
    else m
  let m2 :=
    if !pressed && was then
      if m1.isGrabbedBy sid then m1.release else m1
    else m1
  if m2.isGrabbedBy sid then m2.updatePosition controllerPos else m2

/-- A JSON value arriving as `req.body.displayName`: either a string or
some other JSON type. -/
inductive JsonVal where
  | str (s : String)
  | other
deriving DecidableEq, Repr

/-- Embeds `validateDisplayName` of profileController.ts: `none` when
valid, `some errorMessage` otherwise. The length checked is the string's
own length, with no trimming. -/
def validateDisplayName : JsonVal → Option String
  | .str name =>
    if name.length < 3 || name.length > 20 then
      some "Display name must be 3-20 characters"
    else none
  | .other => some "Display name must be a string"

/-- A row of the `players` table (timestamps as abstract instants). -/
structure PlayerRow where
  id : String
  displayName : String
  createdAt : Nat
  lastActive : Nat
deriving DecidableEq, Repr

/-- HTTP response of the profile-create endpoint. -/
structure ProfileHttpResponse where
  status : Nat
  player : Option PlayerRow
  error : Option String
deriving DecidableEq, Repr

/-- Embeds `profileController.create` (POST /api/profiles): validates
the display name; on failure responds 400 with the validation error and
inserts nothing; on success inserts a row with a fresh id and the
current time, and responds 201 with the row's fields. `newId` stands
for `uuidv4()` and `now` for `new Date()`. The branch for a non-string
that passed validation is unreachable (`validateDisplayName` rejects
every non-string). -/
def profileCreate (displayName : JsonVal) (newId : String) (now : Nat)
    (db : List PlayerRow) : ProfileHttpResponse × List PlayerRow :=
  match validateDisplayName displayName with
  | some e => ({ status := 400, player := none, error := some e }, db)
  | none =>
    match displayName with
    | .str s =>
      let row : PlayerRow :=
        { id := newId, displayName := s, createdAt := now, lastActive := now }
      ({ status := 201, player := some row, error := none }, db ++ [row])
    | .other =>
      ({ status := 400, player := none,
         error := some "Display name must be a string" }, db)

/-- A value of `req.query.q` as Express delivers it: absent, a single
string, an array of strings, or a nested object. -/
inductive QueryVal where
  | absent
  | str (s : String)
  | arr (l : List String)
  | obj
deriving DecidableEq, Repr

/-- A row of the `songs` table. -/
structure SongRow where
  id : String
  youtubeId : String
  title : String
  artist : String
  theme : String
deriving DecidableEq, Repr

/-- Embeds the JavaScript guard `!q || typeof q !== 'string'` of
`songsController.search`: true for an absent value, for the empty
string (falsy), and for every non-string value. -/
def badSearchQuery : QueryVal → Bool
  | .absent => true
  | .str s => s = ""
  | .arr _ => true
  | .obj => true

/-- Embeds the SQL predicate `title ILIKE $1 OR artist ILIKE $1` with
pattern `'%' + q + '%'`: case-insensitive substring containment (for
queries without LIKE wildcard characters). -/
def ilikeContains (hay pat : String) : Bool :=
  decide (List.IsInfix pat.toLower.toList hay.toLower.toList)

/-- Whether a song row matches the search query. -/
def songMatches (q : String) (r : SongRow) : Bool :=
  ilikeContains r.title q || ilikeContains r.artist q

/-- The comparator of the SQL `ORDER BY title ASC`. -/
def titleLE (a b : SongRow) : Prop := a.title ≤ b.title

instance : DecidableRel titleLE := fun a b => inferInstanceAs (Decidable (a.title ≤ b.title))

instance : IsTotal SongRow titleLE := ⟨fun a b => le_total a.title b.title⟩

instance : IsTrans SongRow titleLE := ⟨fun _ _ _ h1 h2 => le_trans h1 h2⟩

/-- HTTP response of the song-search endpoint. -/
structure SongsHttpResponse where
  status : Nat
  songs : Option (List SongRow)
  total : Option Nat
  error : Option String
deriving DecidableEq, Repr

/-- Embeds `songsController.search` (GET /api/songs/search): responds
400 when the query fails the `!q || typeof q !== 'string'` guard;
otherwise returns the rows whose title or artist matches, ordered by
title, with `total` the number of returned rows. -/
def songsSearch (q : QueryVal) (db : List SongRow) : SongsHttpResponse :=
  match q with
  | .str s =>
    if s = "" then
      { status := 400, songs := none, total := none,
        error := some "Search query is required" }
    else
      let rows := (db.filter (songMatches s)).insertionSort titleLE
      { status := 200, songs := some rows, total := some rows.length,
        error := none }
  | _ =>
    { status := 400, songs := none, total := none,
      error := some "Search query is required" }

/-! Lemmas about the panel map and the visibility operations. -/

lemma PanelMap.get_set (m : PanelMap) (t u : UIPanelType) (v : Option UIPanel) :
    (m.set t v).get u = if u = t then v else m.get u := by
  cases t <;> cases u <;> simp [PanelMap.get, PanelMap.set]

lemma PanelMap.ext_get {m m' : PanelMap} (h : ∀ t, m.get t = m'.get t) : m = m' := by
  cases m; cases m'
  have h1 := h .profileInputP
  have h2 := h .roomSelectionP
  have h3 := h .songSearchP
  have h4 := h .keyboardP
  simp_all [PanelMap.get]

lemma UISystem.eq_of_fields {s₁ s₂ : UISystem}
    (hp : ∀ t, s₁.panels.get t = s₂.panels.get t)
    (hh : s₁.hoveredButton = s₂.hoveredButton)
    (ha : s₁.activePanel = s₂.activePanel) : s₁ = s₂ := by
  cases s₁; cases s₂
  simp only [UISystem.mk.injEq]
  exact ⟨PanelMap.ext_get hp, hh, ha⟩

lemma UISystem.hidePanel_get (s : UISystem) (t u : UIPanelType) :
    (s.hidePanel t).panels.get u =
      if u = t then (s.panels.get t).map (fun p => { p with isVisible := false })
      else s.panels.get u := by
  unfold hidePanel
  cases h : s.panels.get t with
  | none => by_cases hu : u = t <;> simp [h, hu]
  | some p => by_cases hu : u = t <;> simp [h, hu, PanelMap.get_set]

lemma UISystem.hidePanel_hoveredButton (s : UISystem) (t : UIPanelType) :
    (s.hidePanel t).hoveredButton = s.hoveredButton := by
  unfold hidePanel; cases h : s.panels.get t <;> simp

lemma UISystem.hidePanel_activePanel (s : UISystem) (t : UIPanelType) :
    (s.hidePanel t).activePanel =
      if s.panels.get t = none then s.activePanel
      else if s.activePanel = some t then none else s.activePanel := by
  unfold hidePanel; cases h : s.panels.get t <;> simp [h]

lemma UISystem.hideAllPanels_get (s : UISystem) (u : UIPanelType) :
    s.hideAllPanels.panels.get u =
      (s.panels.get u).map (fun p => { p with isVisible := false }) := by
  simp only [hideAllPanels, panelIterOrder, List.foldl, UISystem.hidePanel_get]
  cases u <;> simp

lemma UISystem.hideAllPanels_hoveredButton (s : UISystem) :
    s.hideAllPanels.hoveredButton = s.hoveredButton := by
  simp only [hideAllPanels, panelIterOrder, List.foldl, UISystem.hidePanel_hoveredButton]

lemma UISystem.hideAllPanels_activePanel (s : UISystem) :
    s.hideAllPanels.activePanel =
      match s.activePanel with
      | none => none
      | some t => if s.panels.get t = none then some t else none := by
  simp only [hideAllPanels, panelIterOrder, List.foldl]
  rcases hA : s.activePanel with _ | t
  · simp [UISystem.hidePanel_activePanel, UISystem.hidePanel_get, hA]
  · cases t <;>
      simp [UISystem.hidePanel_activePanel, UISystem.hidePanel_get, hA] <;>
      rcases h : s.panels.get _ <;> simp [h]

lemma UISystem.panelVisible_hideAllPanels (s : UISystem) (u : UIPanelType) :
    s.hideAllPanels.panelVisible u = false := by
  unfold panelVisible
  rw [UISystem.hideAllPanels_get]
  cases s.panels.get u <;> simp

lemma UISystem.panelVisible_hidePanel (s : UISystem) (t u : UIPanelType) :
    (s.hidePanel t).panelVisible u =
      if u = t then false else s.panelVisible u := by
  unfold panelVisible
  rw [UISystem.hidePanel_get]
  by_cases hu : u = t
  · simp only [hu, if_pos rfl]
    cases s.panels.get t <;> simp
  · simp [hu]

lemma UISystem.panelVisible_showPanel (s : UISystem) (t u : UIPanelType) :
    (s.showPanel t).panelVisible u =
      if u = t then (s.panels.get t).isSome else s.panelVisible u := by
  unfold showPanel panelVisible
  cases h : s.panels.get t with
  | none => by_cases hu : u = t <;> simp [h, hu]
  | some p => by_cases hu : u = t <;> simp [h, hu, PanelMap.get_set]

/-! Lemmas about the trigger-state map. -/

lemma TriggerMap.find?_map_self (m : TriggerMap) (sid : Nat) (v : Bool)
    (h : m.any (fun e => e.1 = sid) = true) :
    (m.map fun e => if e.1 = sid then (sid, v) else e).find?
      (fun e => e.1 = sid) = some (sid, v) := by
  induction m with
  | nil => simp at h
  | cons e rest ih =>
    by_cases he : e.1 = sid
    · simp [he]
    · have hr : rest.any (fun e => e.1 = sid) = true := by
        simpa [he] using h
      simp [he, ih hr]

lemma TriggerMap.find?_map_ne (m : TriggerMap) (sid sid' : Nat) (v : Bool)
    (h : sid' ≠ sid) :
    (m.map fun e => if e.1 = sid then (sid, v) else e).find?
      (fun e => e.1 = sid') = m.find? (fun e => e.1 = sid') := by
  induction m with
  | nil => simp
  | cons e rest ih =>
    by_cases he : e.1 = sid
    · have hs : ¬ (sid = sid') := by omega
      rw [List.map_cons, if_pos he,
        List.find?_cons_of_neg _ (by simpa using hs),
        List.find?_cons_of_neg _ (by simp; omega)]
      exact ih
    · by_cases he' : e.1 = sid'
      · rw [List.map_cons, if_neg he,
          List.find?_cons_of_pos _ (by simpa using he'),
          List.find?_cons_of_pos _ (by simpa using he')]
      · rw [List.map_cons, if_neg he,
          List.find?_cons_of_neg _ (by simpa using he'),
          List.find?_cons_of_neg _ (by simpa using he')]
        exact ih

lemma TriggerMap.find?_append_single (m : TriggerMap) (sid sid' : Nat) (v : Bool) :
    (m ++ [(sid, v)]).find? (fun e => e.1 = sid') =
      match m.find? (fun e => e.1 = sid') with
      | some e => some e
      | none => if sid = sid' then some (sid, v) else none := by
  induction m with
  | nil => by_cases h : sid = sid' <;> simp [h]
  | cons e rest ih =>
    by_cases he : e.1 = sid'
    · simp [he]
    · simp [he, ih]

lemma TriggerMap.get_set_self (m : TriggerMap) (sid : Nat) (v : Bool) :
    (m.set sid v).get sid = v := by
  unfold TriggerMap.get TriggerMap.set
  by_cases h : m.any (fun e => e.1 = sid) = true
  · simp [h, TriggerMap.find?_map_self m sid v h]
  · have hnone : m.find? (fun e => e.1 = sid) = none := by
      rw [List.find?_eq_none]
      intro e he
      by_contra hc
      exact h (List.any_eq_true.mpr ⟨e, he, hc⟩)
    simp [h, TriggerMap.find?_append_single, hnone]

lemma TriggerMap.get_set_ne (m : TriggerMap) (sid sid' : Nat) (v : Bool)
    (h : sid' ≠ sid) : (m.set sid v).get sid' = m.get sid' := by
  unfold TriggerMap.get TriggerMap.set
  by_cases ha : m.any (fun e => e.1 = sid) = true
  · simp [ha, TriggerMap.find?_map_ne m sid sid' v h]
  · have hs : ¬ (sid = sid') := by omega
    simp only [ha, if_false, Bool.false_eq_true, TriggerMap.find?_append_single, hs]
    cases m.find? (fun e => e.1 = sid') <;> simp

/-! Lemmas about the raycast machinery. -/

lemma mem_panelIterOrder (t : UIPanelType) : t ∈ panelIterOrder := by
  cases t <;> simp [panelIterOrder]

lemma PanelMap.get_mapPanels (m : PanelMap) (f : UIPanel → UIPanel) (t : UIPanelType) :
    (m.mapPanels f).get t = (m.get t).map f := by
  cases t <;> rfl

lemma UISystem.setHoverById_get (s : UISystem) (bid : String) (hv : Bool)
    (t : UIPanelType) :
    (s.setHoverById bid hv).panels.get t =
      (s.panels.get t).map fun p =>
        { p with
          buttons := p.buttons.map fun b =>
            if b.id = bid then { b with isHovered := hv } else b } := by
  unfold UISystem.setHoverById
  exact PanelMap.get_mapPanels ..

lemma UISystem.visibleButtonIds_setHoverById (s : UISystem) (bid : String) (hv : Bool) :
    (s.setHoverById bid hv).visibleButtonIds = s.visibleButtonIds := by
  unfold UISystem.visibleButtonIds
  congr 1
  funext t
  rw [UISystem.setHoverById_get]
  cases s.panels.get t with
  | none => rfl
  | some p =>
    by_cases hv2 : p.isVisible <;> simp [hv2, List.map_map]
    intro b _
    by_cases hb : b.id = bid <;> simp [hb]

lemma UISystem.mem_visibleButtonIds (s : UISystem) (bid : String) :
    bid ∈ s.visibleButtonIds ↔
      ∃ t p, s.panels.get t = some p ∧ p.isVisible = true
        ∧ ∃ b ∈ p.buttons, b.id = bid := by
  unfold UISystem.visibleButtonIds
  rw [List.mem_flatMap]
  constructor
  · rintro ⟨t, -, hmem⟩
    cases hget : s.panels.get t with
    | none => rw [hget] at hmem; cases hmem
    | some p =>
      rw [hget] at hmem
      by_cases hvis : p.isVisible = true
      · simp only [hvis, if_true] at hmem
        rcases List.mem_map.mp hmem with ⟨b, hb, hid⟩
        exact ⟨t, p, hget, hvis, b, hb, hid⟩
      · simp only [hvis, if_false] at hmem
        cases hmem
  · rintro ⟨t, p, hget, hvis, b, hb, hid⟩
    refine ⟨t, mem_panelIterOrder t, ?_⟩
    rw [hget]
    simp only [hvis, if_true]
    exact List.mem_map.mpr ⟨b, hb, hid⟩

lemma UISystem.hoverCleared_setHover_false (s : UISystem) (bid : String) :
    (s.setHoverById bid false).hoverCleared bid := by
  intro t p hp b hb hid
  rw [UISystem.setHoverById_get] at hp
  rcases Option.map_eq_some'.mp hp with ⟨p0, hp0, hpe⟩
  subst hpe
  rcases List.mem_map.mp hb with ⟨b0, hb0, hbe⟩
  by_cases h0 : b0.id = bid
  · rw [if_pos h0] at hbe; rw [← hbe]
  · rw [if_neg h0] at hbe; rw [← hbe] at hid; exact absurd hid h0

lemma UISystem.hoverCleared_setHover_other (s : UISystem) (bid bid' : String)
    (hne : bid' ≠ bid) (h : s.hoverCleared bid) :
    (s.setHoverById bid' true).hoverCleared bid := by
  intro t p hp b hb hid
  rw [UISystem.setHoverById_get] at hp
  rcases Option.map_eq_some'.mp hp with ⟨p0, hp0, hpe⟩
  subst hpe
  rcases List.mem_map.mp hb with ⟨b0, hb0, hbe⟩
  by_cases h0 : b0.id = bid'
  · rw [if_pos h0] at hbe
    rw [← hbe] at hid
    simp at hid
    exact absurd (h0.symm.trans hid) hne
  · rw [if_neg h0] at hbe
    subst hbe
    exact h t p0 hp0 b0 hb0 hid

lemma UISystem.hoverSet_setHover_true (s : UISystem) (bid : String) :
    (s.setHoverById bid true).hoverSet bid := by
  intro t p hp b hb hid
  rw [UISystem.setHoverById_get] at hp
  rcases Option.map_eq_some'.mp hp with ⟨p0, hp0, hpe⟩
  subst hpe
  rcases List.mem_map.mp hb with ⟨b0, hb0, hbe⟩
  by_cases h0 : b0.id = bid
  · rw [if_pos h0] at hbe; rw [← hbe]
  · rw [if_neg h0] at hbe; rw [← hbe] at hid; exact absurd hid h0

lemma UISystem.findButtonById_id (s : UISystem) (bid : String) (b : UIButton)
    (h : s.findButtonById bid = some b) : b.id = bid := by
  unfold UISystem.findButtonById at h
  rcases List.exists_of_findSome?_eq_some h with ⟨t, -, hf⟩
  cases hget : s.panels.get t with
  | none => rw [hget] at hf; cases hf
  | some p =>
    rw [hget] at hf
    simpa using List.find?_some hf

lemma UISystem.findButtonById_isSome (s : UISystem) (bid : String)
    (hmem : bid ∈ s.visibleButtonIds) : (s.findButtonById bid).isSome := by
  rcases (UISystem.mem_visibleButtonIds s bid).mp hmem with
    ⟨t, p, hget, hvis, b, hb, hid⟩
  unfold UISystem.findButtonById
  cases hfs : panelIterOrder.findSome? (fun t =>
      match s.panels.get t with
      | some p => p.buttons.find? fun b => b.id = bid
      | none => none) with
  | some x => simp
  | none =>
    exfalso
    have hall := List.findSome?_eq_none.mp hfs t (mem_panelIterOrder t)
    rw [hget] at hall
    exact absurd hid (by simpa using List.find?_eq_none.mp hall b hb)

lemma mem_intersectObjects (ids : List String) (dist : RayHits) (x : String × ℚ) :
    x ∈ intersectObjects ids dist ↔ x.1 ∈ ids ∧ dist x.1 = some x.2 := by
  unfold intersectObjects
  rw [List.Perm.mem_iff (List.perm_insertionSort _ _), List.mem_filterMap]
  constructor
  · rintro ⟨i, hi, hf⟩
    rcases Option.map_eq_some'.mp hf with ⟨d, hd, he⟩
    rw [← he]
    exact ⟨hi, hd⟩
  · rintro ⟨h1, h2⟩
    exact ⟨x.1, h1, by rw [h2]; rfl⟩

lemma intersectObjects_head?_min (ids : List String) (dist : RayHits)
    (hit : String × ℚ) (h : (intersectObjects ids dist).head? = some hit) :
    hit.1 ∈ ids ∧ dist hit.1 = some hit.2
      ∧ ∀ j ∈ ids, ∀ e, dist j = some e → hit.2 ≤ e := by
  obtain ⟨rest, hl⟩ : ∃ rest, intersectObjects ids dist = hit :: rest := by
    cases hc : intersectObjects ids dist with
    | nil => rw [hc] at h; cases h
    | cons a r =>
      rw [hc] at h
      simp only [List.head?] at h
      injection h with h2
      subst h2
      exact ⟨r, rfl⟩
  have hmem : hit ∈ intersectObjects ids dist := by
    rw [hl]; exact List.mem_cons_self _ _
  have h1 := (mem_intersectObjects ids dist hit).mp hmem
  refine ⟨h1.1, h1.2, ?_⟩
  intro j hj e he
  have hme : (j, e) ∈ intersectObjects ids dist :=
    (mem_intersectObjects ids dist (j, e)).mpr ⟨hj, he⟩
  rw [hl] at hme
  rcases List.mem_cons.mp hme with heq | hrest
  · rw [show hit = (j, e) from heq.symm]
  · have hs : List.Sorted distLE (intersectObjects ids dist) :=
      List.sorted_insertionSort distLE _
    rw [hl] at hs
    exact (List.sorted_cons.mp hs).1 _ hrest

lemma intersectObjects_ne_nil (ids : List String) (dist : RayHits) (j : String)
    (hj : j ∈ ids) (he : (dist j).isSome) : intersectObjects ids dist ≠ [] := by
  rcases Option.isSome_iff_exists.mp he with ⟨e, hde⟩
  exact List.ne_nil_of_mem ((mem_intersectObjects ids dist (j, e)).mpr ⟨hj, hde⟩)

lemma UISystem.handleRaycast_empty (s : UISystem) (dist : RayHits)
    (hm : s.visibleButtonIds.isEmpty = true) :
    s.handleRaycast dist = (s, none) := by
  unfold UISystem.handleRaycast
  simp [hm]

lemma UISystem.handleRaycast_nohit (s : UISystem) (dist : RayHits)
    (hm : s.visibleButtonIds.isEmpty = false)
    (hh : (intersectObjects s.visibleButtonIds dist).head? = none) :
    (s.handleRaycast dist).2 = none
    ∧ (∀ h0, s.hoveredButton = some h0 →
        UISystem.hoverCleared (s.handleRaycast dist).1 h0) := by
  rcases hhov : s.hoveredButton with _ | h0
  · constructor
    · unfold UISystem.handleRaycast
      simp [hm, hhov, hh]
    · intro h0 hcon
      cases hcon
  · constructor
    · unfold UISystem.handleRaycast
      simp [hm, hhov, hh]
    · intro h1 hcon
      injection hcon with he
      subst he
      have hres : (s.handleRaycast dist).1 =
          { s.setHoverById h0 false with hoveredButton := none } := by
        unfold UISystem.handleRaycast
        simp [hm, hhov, hh]
      rw [hres]
      exact UISystem.hoverCleared_setHover_false s h0

lemma UISystem.handleRaycast_hit (s : UISystem) (dist : RayHits)
    (hit : String × ℚ)
    (hm : s.visibleButtonIds.isEmpty = false)
    (hh : (intersectObjects s.visibleButtonIds dist).head? = some hit) :
    ∃ b0 : UIButton, b0.id = hit.1
      ∧ (s.handleRaycast dist).2 = some { b0 with isHovered := true }
      ∧ (s.handleRaycast dist).1.hoveredButton = some hit.1
      ∧ UISystem.hoverSet (s.handleRaycast dist).1 hit.1
      ∧ (∀ h0, s.hoveredButton = some h0 → h0 ≠ hit.1 →
          UISystem.hoverCleared (s.handleRaycast dist).1 h0) := by
  have hhit := intersectObjects_head?_min _ dist hit hh
  rcases hhov : s.hoveredButton with _ | h0
  · have hfbs : (s.findButtonById hit.1).isSome :=
      UISystem.findButtonById_isSome _ _ hhit.1
    rcases hfb : s.findButtonById hit.1 with _ | b0
    · rw [hfb] at hfbs; cases hfbs
    · refine ⟨b0, UISystem.findButtonById_id _ _ _ hfb, ?_, ?_, ?_, ?_⟩
      · unfold UISystem.handleRaycast
        simp [hm, hhov, hh, hfb]
      · unfold UISystem.handleRaycast
        simp [hm, hhov, hh, hfb]
      · have hres : (s.handleRaycast dist).1 =
            { s.setHoverById hit.1 true with hoveredButton := some hit.1 } := by
          unfold UISystem.handleRaycast
          simp [hm, hhov, hh, hfb]
        rw [hres]
        exact UISystem.hoverSet_setHover_true s hit.1
      · intro h0 hcon
        cases hcon
  · have hvb : UISystem.visibleButtonIds
        { s.setHoverById h0 false with hoveredButton := none } =
        s.visibleButtonIds :=
      UISystem.visibleButtonIds_setHoverById s h0 false
    have hmem1 : hit.1 ∈ UISystem.visibleButtonIds
        { s.setHoverById h0 false with hoveredButton := none } := by
      rw [hvb]; exact hhit.1
    have hfbs := UISystem.findButtonById_isSome _ _ hmem1
    rcases hfb : UISystem.findButtonById
        { s.setHoverById h0 false with hoveredButton := none } hit.1 with _ | b0
    · rw [hfb] at hfbs; cases hfbs
    · refine ⟨b0, UISystem.findButtonById_id _ _ _ hfb, ?_, ?_, ?_, ?_⟩
      · unfold UISystem.handleRaycast
        simp [hm, hhov, hh, hfb]
      · unfold UISystem.handleRaycast
        simp [hm, hhov, hh, hfb]
      · have hres : (s.handleRaycast dist).1 =
            { UISystem.setHoverById
                { s.setHoverById h0 false with hoveredButton := none } hit.1 true
              with hoveredButton := some hit.1 } := by
          unfold UISystem.handleRaycast
          simp [hm, hhov, hh, hfb]
        rw [hres]
        exact UISystem.hoverSet_setHover_true _ hit.1
      · intro h1 hcon hne
        injection hcon with he
        subst he
        have hres : (s.handleRaycast dist).1 =
            { UISystem.setHoverById
                { s.setHoverById h0 false with hoveredButton := none } hit.1 true
              with hoveredButton := some hit.1 } := by
          unfold UISystem.handleRaycast
          simp [hm, hhov, hh, hfb]
        rw [hres]
        have hc1 : UISystem.hoverCleared
            { s.setHoverById h0 false with hoveredButton := none } h0 :=
          UISystem.hoverCleared_setHover_false s h0
        exact UISystem.hoverCleared_setHover_other _ h0 hit.1
          (fun he2 => hne he2.symm) hc1

lemma UISystem.mainCount_hideAll_show (u : UISystem) (t : UIPanelType) :
    (u.hideAllPanels.showPanel t).mainPanelVisibleCount ≤ 1 := by
  unfold UISystem.mainPanelVisibleCount
  simp only [UISystem.panelVisible_showPanel, UISystem.panelVisible_hideAllPanels]
  cases t <;> simp <;> split <;> simp

lemma UISystem.mainCount_hideAll (u : UISystem) :
    u.hideAllPanels.mainPanelVisibleCount = 0 := by
  unfold UISystem.mainPanelVisibleCount
  simp [UISystem.panelVisible_hideAllPanels]

lemma UISystem.mainCount_hidePanel_le (u : UISystem) (t : UIPanelType) :
    (u.hidePanel t).mainPanelVisibleCount ≤ u.mainPanelVisibleCount := by
  unfold UISystem.mainPanelVisibleCount
  simp only [UISystem.panelVisible_hidePanel]
  cases t <;> simp <;> split <;> simp <;> omega

/-! Lemmas about trigger-edge detection. -/

lemma processSources_skip1 (ui : UISystem) (tm : TriggerMap)
    (s : XRSourceFrame) (rest : List XRSourceFrame)
    (h1 : s.trackedPointer = false) :
    processSources ui tm (s :: rest) = processSources ui tm rest := by
  rw [processSources, if_pos h1]

lemma processSources_skip2 (ui : UISystem) (tm : TriggerMap)
    (s : XRSourceFrame) (rest : List XRSourceFrame)
    (h1 : ¬ s.trackedPointer = false) (h2 : s.hasPose = false) :
    processSources ui tm (s :: rest) = processSources ui tm rest := by
  rw [processSources, if_neg h1, if_pos h2]

lemma processSources_nogamepad (ui : UISystem) (tm : TriggerMap)
    (s : XRSourceFrame) (rest : List XRSourceFrame)
    (h1 : ¬ s.trackedPointer = false) (h2 : ¬ s.hasPose = false)
    (hg : s.gamepad = none) :
    processSources ui tm (s :: rest) =
      ((ui.handleRaycast s.rayDist).1, tm, none, []) := by
  rw [processSources, if_neg h1, if_neg h2, hg]

lemma processSources_main_tm (ui : UISystem) (tm : TriggerMap)
    (s : XRSourceFrame) (rest : List XRSourceFrame)
    (h1 : ¬ s.trackedPointer = false) (h2 : ¬ s.hasPose = false)
    (pressed : Bool) (hg : s.gamepad = some pressed) :
    (processSources ui tm (s :: rest)).2.1 = tm.set s.sid pressed := by
  rw [processSources, if_neg h1, if_neg h2, hg]

lemma processSources_main_act (ui : UISystem) (tm : TriggerMap)
    (s : XRSourceFrame) (rest : List XRSourceFrame)
    (h1 : ¬ s.trackedPointer = false) (h2 : ¬ s.hasPose = false)
    (pressed : Bool) (hg : s.gamepad = some pressed) :
    (processSources ui tm (s :: rest)).2.2.1 =
      (if (pressed && !tm.get s.sid) = true then some s.sid else none) := by
  rw [processSources, if_neg h1, if_neg h2, hg]

lemma processSources_act_some (ui : UISystem) (tm : TriggerMap)
    (fs : List XRSourceFrame) (sid : Nat)
    (h : (processSources ui tm fs).2.2.1 = some sid) :
    ∃ s ∈ fs, s.sid = sid ∧ s.gamepad = some true ∧ tm.get sid = false := by
  induction fs with
  | nil => cases h
  | cons s rest ih =>
    by_cases h1 : s.trackedPointer = false
    · rw [processSources_skip1 ui tm s rest h1] at h
      rcases ih h with ⟨s2, hs2, hrest⟩
      exact ⟨s2, List.mem_cons_of_mem s hs2, hrest⟩
    · by_cases h2 : s.hasPose = false
      · rw [processSources_skip2 ui tm s rest h1 h2] at h
        rcases ih h with ⟨s2, hs2, hrest⟩
        exact ⟨s2, List.mem_cons_of_mem s hs2, hrest⟩
      · cases hg : s.gamepad with
        | none =>
          rw [processSources_nogamepad ui tm s rest h1 h2 hg] at h
          cases h
        | some pressed =>
          rw [processSources_main_act ui tm s rest h1 h2 pressed hg] at h
          by_cases hf : (pressed && !tm.get s.sid) = true
          · rw [if_pos hf] at h
            injection h with hsid
            have hf2 : pressed = true ∧ tm.get s.sid = false := by
              simpa using hf
            refine ⟨s, List.mem_cons_self s rest, hsid, ?_, ?_⟩
            · rw [hg, hf2.1]
            · rw [← hsid]; exact hf2.2
          · rw [if_neg hf] at h; cases h

lemma processSources_get_true (ui : UISystem) (tm : TriggerMap)
    (fs : List XRSourceFrame) (sid : Nat)
    (hheld : ∀ s ∈ fs, s.sid = sid → s.gamepad = some true)
    (h : tm.get sid = true) :
    ((processSources ui tm fs).2.1).get sid = true := by
  induction fs with
  | nil => exact h
  | cons s rest ih =>
    have hheld2 : ∀ s2 ∈ rest, s2.sid = sid → s2.gamepad = some true :=
      fun s2 hs2 => hheld s2 (List.mem_cons_of_mem s hs2)
    by_cases h1 : s.trackedPointer = false
    · rw [processSources_skip1 ui tm s rest h1]
      exact ih hheld2
    · by_cases h2 : s.hasPose = false
      · rw [processSources_skip2 ui tm s rest h1 h2]
        exact ih hheld2
      · cases hg : s.gamepad with
        | none =>
          rw [processSources_nogamepad ui tm s rest h1 h2 hg]
          exact h
        | some pressed =>
          rw [processSources_main_tm ui tm s rest h1 h2 pressed hg]
          by_cases hsid : s.sid = sid
          · have hgp : s.gamepad = some true :=
              hheld s (List.mem_cons_self s rest) hsid
            rw [hg] at hgp
            injection hgp with hp
            rw [hsid, hp, TriggerMap.get_set_self]
          · rw [TriggerMap.get_set_ne _ _ _ _ (by omega)]
            exact h

lemma processSources_act_sets (ui : UISystem) (tm : TriggerMap)
    (fs : List XRSourceFrame) (sid : Nat)
    (h : (processSources ui tm fs).2.2.1 = some sid) :
    ((processSources ui tm fs).2.1).get sid = true := by
  induction fs with
  | nil => cases h
  | cons s rest ih =>
    by_cases h1 : s.trackedPointer = false
    · rw [processSources_skip1 ui tm s rest h1] at h ⊢
      exact ih h
    · by_cases h2 : s.hasPose = false
      · rw [processSources_skip2 ui tm s rest h1 h2] at h ⊢
        exact ih h
      · cases hg : s.gamepad with
        | none =>
          rw [processSources_nogamepad ui tm s rest h1 h2 hg] at h
          cases h
        | some pressed =>
          rw [processSources_main_act ui tm s rest h1 h2 pressed hg] at h
          rw [processSources_main_tm ui tm s rest h1 h2 pressed hg]
          by_cases hf : (pressed && !tm.get s.sid) = true
          · rw [if_pos hf] at h
            injection h with hsid
            have hf2 : pressed = true ∧ tm.get s.sid = false := by
              simpa using hf
            rw [hsid, TriggerMap.get_set_self]
            exact hf2.1
          · rw [if_neg hf] at h; cases h

lemma processCtl_act_some (ui : UISystem) (tm : TriggerMap)
    (fs : List XRSourceFrame) (sid : Nat)
    (h : (processControllerInput ui tm fs).2.2.1 = some sid) :
    ∃ s ∈ fs, s.sid = sid ∧ s.gamepad = some true ∧ tm.get sid = false := by
  by_cases hv : ui.hasVisiblePanel = false
  · rw [processControllerInput, if_pos hv] at h; cases h
  · rw [processControllerInput, if_neg hv] at h
    exact processSources_act_some ui tm fs sid h

lemma processCtl_get_true (ui : UISystem) (tm : TriggerMap)
    (fs : List XRSourceFrame) (sid : Nat)
    (hheld : ∀ s ∈ fs, s.sid = sid → s.gamepad = some true)
    (h : tm.get sid = true) :
    ((processControllerInput ui tm fs).2.1).get sid = true := by
  by_cases hv : ui.hasVisiblePanel = false
  · rw [processControllerInput, if_pos hv]; exact h
  · rw [processControllerInput, if_neg hv]
    exact processSources_get_true ui tm fs sid hheld h

lemma processCtl_act_sets (ui : UISystem) (tm : TriggerMap)
    (fs : List XRSourceFrame) (sid : Nat)
    (h : (processControllerInput ui tm fs).2.2.1 = some sid) :
    ((processControllerInput ui tm fs).2.1).get sid = true := by
  by_cases hv : ui.hasVisiblePanel = false
  · rw [processControllerInput, if_pos hv] at h; cases h
  · rw [processControllerInput, if_neg hv] at h ⊢
    exact processSources_act_sets ui tm fs sid h

lemma countActivations_cons (sid : Nat) (a : Option Nat) (tr : List (Option Nat)) :
    countActivations sid (a :: tr) =
      (if a = some sid then 1 else 0) + countActivations sid tr := by
  unfold countActivations
  rw [List.filter_cons]
  by_cases ha : a = some sid <;> simp [ha] <;> omega

lemma runCtl_count_zero (ui : UISystem) (tm : TriggerMap)
    (frames : List (List XRSourceFrame)) (sid : Nat)
    (hheld : ∀ fs ∈ frames, ∀ s ∈ fs, s.sid = sid → s.gamepad = some true)
    (h : tm.get sid = true) :
    countActivations sid (runCtl ui tm frames) = 0 := by
  induction frames generalizing ui tm with
  | nil => rfl
  | cons fs rest ih =>
    have hact : ¬ ((processControllerInput ui tm fs).2.2.1 = some sid) := by
      intro hc
      rcases processCtl_act_some ui tm fs sid hc with ⟨s, -, -, -, hget⟩
      rw [h] at hget; cases hget
    have hrw : runCtl ui tm (fs :: rest) =
        (processControllerInput ui tm fs).2.2.1 ::
          runCtl (processControllerInput ui tm fs).1
            (processControllerInput ui tm fs).2.1 rest := rfl
    rw [hrw, countActivations_cons, if_neg hact]
    have h2 : ((processControllerInput ui tm fs).2.1).get sid = true :=
      processCtl_get_true ui tm fs sid
        (hheld fs (List.mem_cons_self fs rest)) h
    rw [ih (processControllerInput ui tm fs).1 (processControllerInput ui tm fs).2.1
        (fun fs2 hfs2 => hheld fs2 (List.mem_cons_of_mem fs hfs2)) h2]

/-! Claim theorems. -/

/-- C9: `hidePanel` and `hideAllPanels` are idempotent: for every panel
id, calling hide twice in a row leaves the panel hidden after each call
and changes nothing the second time; calling `hideAllPanels` with
nothing visible, or repeatedly, is safe (the operations are total) and
leaves every panel hidden. -/
theorem hide_operations_idempotent (s : UISystem) (t : UIPanelType) :
    (s.hidePanel t).panelVisible t = false
    ∧ ((s.hidePanel t).hidePanel t).panelVisible t = false
    ∧ (s.hidePanel t).hidePanel t = s.hidePanel t
    ∧ s.hideAllPanels.hideAllPanels = s.hideAllPanels
    ∧ (∀ u, s.hideAllPanels.panelVisible u = false) := by
  refine ⟨?_, ?_, ?_, ?_, ?_⟩
  · simp [UISystem.panelVisible_hidePanel]
  · simp [UISystem.panelVisible_hidePanel]
  · apply UISystem.eq_of_fields
    · intro u
      rw [UISystem.hidePanel_get, UISystem.hidePanel_get, UISystem.hidePanel_get]
      by_cases hu : u = t
      · simp only [hu, if_pos rfl]
        cases s.panels.get t <;> simp
      · simp [hu]
    · rw [UISystem.hidePanel_hoveredButton, UISystem.hidePanel_hoveredButton]
    · rw [UISystem.hidePanel_activePanel, UISystem.hidePanel_activePanel,
        UISystem.hidePanel_get]
      by_cases hG : s.panels.get t = none
      · simp [hG]
      · by_cases hA : s.activePanel = some t <;> simp [hG, hA] <;>
          cases s.panels.get t <;> simp_all
  · apply UISystem.eq_of_fields
    · intro u
      rw [UISystem.hideAllPanels_get, UISystem.hideAllPanels_get]
      cases s.panels.get u <;> simp
    · rw [UISystem.hideAllPanels_hoveredButton, UISystem.hideAllPanels_hoveredButton]
    · rw [UISystem.hideAllPanels_activePanel, UISystem.hideAllPanels_activePanel]
      rcases hA : s.activePanel with _ | u
      · simp
      · by_cases hG : s.panels.get u = none <;>
          simp [hG, UISystem.hideAllPanels_get] <;>
          cases s.panels.get u <;> simp_all
  · intro u
    exact UISystem.panelVisible_hideAllPanels s u

/-- C10: microphone grabbing is exclusive and restoring: `grab` on an
already grabbed microphone is a no-op (so the holder never changes while
held), `release` on a non-grabbed microphone is a no-op, an effective
`release` returns the microphone to its recorded spawn position with its
original colours and clears the holder, and the input step of a source
that is not the grabbing controller leaves a grabbed microphone entirely
unchanged (only the grabbing controller's release path detaches it). -/
theorem microphone_grab_exclusive_and_restoring (m : MicrophoneEntity)
    (c : Option Nat) (sid holder : Nat) (pos : Vec3) (pressed was : Bool) :
    (m.isGrabbed = true → m.grab c = m)
    ∧ (m.isGrabbed = false → m.release = m)
    ∧ (m.isGrabbed = true →
        m.release.position = m.spawnPosition
        ∧ m.release.bodyColor = m.originalBodyColor
        ∧ m.release.headColor = m.originalHeadColor
        ∧ m.release.isGrabbed = false
        ∧ m.release.grabbingController = none)
    ∧ (m.isGrabbedBy holder = true → sid ≠ holder →
        micStep m sid pos pressed was = m) := by
  refine ⟨?_, ?_, ?_, ?_⟩
  · intro h; simp [MicrophoneEntity.grab, h]
  · intro h; simp [MicrophoneEntity.release, h]
  · intro h; simp [MicrophoneEntity.release, h]
  · intro h hne
    have h1 : m.isGrabbed = true := by
      simp [MicrophoneEntity.isGrabbedBy] at h; exact h.1
    have h2 : m.grabbingController = some holder := by
      simp [MicrophoneEntity.isGrabbedBy] at h; exact h.2
    have hns : ¬ (holder = sid) := by omega
    simp [micStep, MicrophoneEntity.isGrabbedBy, h1, h2, hns]

/-- C10 witness: a microphone grabbed by controller 5 is untouched by a
full press-and-release step of controller 7. -/
theorem microphone_grab_exclusive_witness :
    ((MicrophoneEntity.create ⟨0, 0, 0⟩).grab (some 5)).isGrabbedBy 5 = true
    ∧ micStep ((MicrophoneEntity.create ⟨0, 0, 0⟩).grab (some 5)) 7 ⟨1, 1, 1⟩ false true
        = (MicrophoneEntity.create ⟨0, 0, 0⟩).grab (some 5) :=
  ⟨by decide,
   (microphone_grab_exclusive_and_restoring
      ((MicrophoneEntity.create ⟨0, 0, 0⟩).grab (some 5))
      (some 5) 7 5 ⟨1, 1, 1⟩ false true).2.2.2 (by decide) (by decide)⟩

/-- C7 counterexample: the claim reads the validated bound on the
trimmed length, but the server validates the raw length: the body
`" a "` (raw length 3, trimmed length 1) is accepted with 201 and
inserted, where the claim demands 400. -/
theorem profileCreate_trimmed_counterexample :
    (profileCreate (JsonVal.str " a ") "id-1" 0 []).1.status = 201
    ∧ (jsTrim " a ").length = 1 := by
  exact ⟨rfl, by decide⟩

/-- C7 (amended): for every POST /api/profiles body, the server responds
201 with id, displayName, createdAt and lastActive — inserting exactly
one row — when displayName is a string whose raw (untrimmed) length is
between 3 and 20; otherwise (non-string, or length out of range) it
responds 400 with an error message and inserts nothing. -/
theorem profileCreate_status_and_insert (dn : JsonVal) (newId : String)
    (now : Nat) (db : List PlayerRow) :
    (∀ s, dn = .str s →
      ((3 ≤ s.length ∧ s.length ≤ 20) →
        (profileCreate dn newId now db).1.status = 201
        ∧ (profileCreate dn newId now db).1.player =
            some { id := newId, displayName := s, createdAt := now, lastActive := now }
        ∧ (profileCreate dn newId now db).2 =
            db ++ [{ id := newId, displayName := s, createdAt := now, lastActive := now }])
      ∧ (¬(3 ≤ s.length ∧ s.length ≤ 20) →
        (profileCreate dn newId now db).1.status = 400
        ∧ (profileCreate dn newId now db).1.error ≠ none
        ∧ (profileCreate dn newId now db).2 = db))
    ∧ (dn = .other →
      (profileCreate dn newId now db).1.status = 400
      ∧ (profileCreate dn newId now db).2 = db) := by
  constructor
  · intro s hdn
    subst hdn
    constructor
    · intro hlen
      have hb : ¬ (s.length < 3 || s.length > 20) = true := by
        simp; omega
      simp [profileCreate, validateDisplayName, hb]
    · intro hlen
      have hb : (s.length < 3 || s.length > 20) = true := by
        simp; omega
      simp [profileCreate, validateDisplayName, hb]
  · intro hdn
    subst hdn
    simp [profileCreate, validateDisplayName]

/-- C7 witness: the valid body `"Alice"` is created with 201 and its
row appended to the table. -/
theorem profileCreate_witness :
    ((3 ≤ "Alice".length ∧ "Alice".length ≤ 20)
      ∧ (profileCreate (JsonVal.str "Alice") "id-1" 0 []).1.status = 201
      ∧ (profileCreate (JsonVal.str "Alice") "id-1" 0 []).2 =
          [{ id := "id-1", displayName := "Alice", createdAt := 0, lastActive := 0 }]) :=
  ⟨by decide,
   ((profileCreate_status_and_insert (JsonVal.str "Alice") "id-1" 0 []).1
      "Alice" rfl).1 (by decide) |>.1,
   (((profileCreate_status_and_insert (JsonVal.str "Alice") "id-1" 0 []).1
      "Alice" rfl).1 (by decide)).2.2⟩

/-- C8 counterexample: the query string `""` is present and is a single
string, so the claim's "400 if and only if q is missing (or not a
single string)" demands a non-400 response; the code's falsy check
`!q` rejects it with 400. -/
theorem songsSearch_empty_query_counterexample :
    (songsSearch (QueryVal.str "") []).status = 400 := rfl

/-- C8 (amended): GET /api/songs/search responds 400 if and only if the
query parameter q is missing, an empty string, or not a single string;
otherwise it responds 200 with the rows whose title or artist matches
the query case-insensitively, ordered by title, and total equal to the
number of returned songs. -/
theorem songsSearch_status_and_results (q : QueryVal) (db : List SongRow) :
    ((songsSearch q db).status = 400 ↔ badSearchQuery q = true)
    ∧ (∀ s, q = .str s → s ≠ "" →
        (songsSearch q db).status = 200
        ∧ ∃ rows, (songsSearch q db).songs = some rows
            ∧ (songsSearch q db).total = some rows.length
            ∧ rows.Perm (db.filter (songMatches s))
            ∧ List.Sorted titleLE rows) := by
  rcases q with _ | s | l | _
  · exact ⟨by simp [songsSearch, badSearchQuery], by intro s h; cases h⟩
  · by_cases hs : s = ""
    · subst hs
      refine ⟨by simp [songsSearch, badSearchQuery], ?_⟩
      intro s2 heq hne
      have hse : s2 = "" := by injection heq with h; exact h.symm
      exact absurd hse hne
    · refine ⟨by simp [songsSearch, badSearchQuery, hs], ?_⟩
      intro s2 heq hne
      have hse : s2 = s := by injection heq with h; exact h.symm
      subst hse
      refine ⟨by simp [songsSearch, hs], ?_⟩
      refine ⟨(db.filter (songMatches s2)).insertionSort titleLE,
        by simp [songsSearch, hs], by simp [songsSearch, hs], ?_, ?_⟩
      · exact List.perm_insertionSort titleLE _
      · exact List.sorted_insertionSort titleLE _
  · exact ⟨by simp [songsSearch, badSearchQuery], by intro s h; cases h⟩
  · exact ⟨by simp [songsSearch, badSearchQuery], by intro s h; cases h⟩

/-- C8 witness: searching a one-row table for `"lov"` returns that row
with total 1. -/
theorem songsSearch_witness :
    ((QueryVal.str "lov" = QueryVal.str "lov") ∧ ("lov" : String) ≠ ""
      ∧ (songsSearch (QueryVal.str "lov")
          [{ id := "s1", youtubeId := "y1", title := "Love Story",
             artist := "Taylor Swift", theme := "taylor-swift" }]).status = 200) :=
  ⟨rfl, by decide,
   ((songsSearch_status_and_results (QueryVal.str "lov")
      [{ id := "s1", youtubeId := "y1", title := "Love Story",
         artist := "Taylor Swift", theme := "taylor-swift" }]).2
      "lov" rfl (by decide)).1⟩

/-- C1 counterexample: in the concrete error state whose stored thunk is
the resubmit of "Alice", the thunk is still stored — not set back to
null — both after the dismiss action and after a successful retry. -/
theorem retry_thunk_not_cleared_counterexample :
    (errorStateFlow.handleErrorDismiss true).lastFailedAction
        = some (RetryAction.profileSubmit "Alice")
    ∧ (errorStateFlow.handleErrorRetry Outcome.ok).lastFailedAction
        = some (RetryAction.profileSubmit "Alice") := by
  exact ⟨rfl, rfl⟩

/-- C1 (amended): the retry thunk stored for a failure is retained, not
cleared: the error dismiss action leaves `lastFailedAction` unchanged
(when the panel transition it triggers succeeds), and a successful
retry leaves it unchanged as well; the thunk is only replaced when a
subsequent failure stores a new one through `showError`. -/
theorem retry_thunk_retained (a : AppFlow) :
    (a.handleErrorDismiss true).lastFailedAction = a.lastFailedAction
    ∧ (a.handleErrorRetry Outcome.ok).lastFailedAction = a.lastFailedAction := by
  constructor
  · by_cases h : a.roomLoaded <;>
      simp [AppFlow.handleErrorDismiss, AppFlow.showSongSearch,
        AppFlow.showRoomSelection, AppFlow.showLoading, AppFlow.hideLoading, h]
  · rcases hact : a.lastFailedAction with _ | act
    · simp [AppFlow.handleErrorRetry, hact]
    · cases act <;>
        simp [AppFlow.handleErrorRetry, hact, AppFlow.runRetryAction,
          AppFlow.handleProfileSubmit, AppFlow.handleRoomSelect,
          AppFlow.showSongSearch, AppFlow.showRoomSelection,
          AppFlow.showLoading, AppFlow.hideLoading, Outcome.isOk]

/-- C2: submitting the profile-input panel passes validation exactly
when the trimmed display name length lies in [3, 20]; on any violation
a local validation error message is set, the submit callback — and with
it the profile-create network call — is not invoked, and the
application state stays at profile-input. -/
theorem profile_name_validation (a : AppFlow) (outcome : Outcome)
    (h : a.state = AppState.profileInput) :
    ((ProfileInputPanel.validateName a.profilePanel).2 = true ↔
      (3 ≤ (jsTrim a.profilePanel.displayName).length
        ∧ (jsTrim a.profilePanel.displayName).length ≤ 20))
    ∧ (¬(3 ≤ (jsTrim a.profilePanel.displayName).length
          ∧ (jsTrim a.profilePanel.displayName).length ≤ 20) →
        (a.submitProfileFlow outcome).2 = false
        ∧ (a.submitProfileFlow outcome).1.state = AppState.profileInput
        ∧ (a.submitProfileFlow outcome).1.profilePanel.errorMessage ≠ "") := by
  constructor
  · unfold ProfileInputPanel.validateName
    by_cases h1 : (jsTrim a.profilePanel.displayName).length < NAME_MIN_LENGTH
    · simp only [h1, if_pos rfl]
      constructor
      · intro hc; cases hc
      · intro hc; exact absurd hc (by unfold NAME_MIN_LENGTH at h1; omega)
    · by_cases h2 : (jsTrim a.profilePanel.displayName).length > NAME_MAX_LENGTH
      · simp [h1, h2]
        unfold NAME_MAX_LENGTH at h2; omega
      · simp [h1, h2]
        unfold NAME_MIN_LENGTH at h1; unfold NAME_MAX_LENGTH at h2; omega
  · intro hbad
    have hv : (ProfileInputPanel.validateName a.profilePanel).2 = false := by
      unfold ProfileInputPanel.validateName
      by_cases h1 : (jsTrim a.profilePanel.displayName).length < NAME_MIN_LENGTH
      · simp [h1]
      · have h2 : (jsTrim a.profilePanel.displayName).length > NAME_MAX_LENGTH := by
          unfold NAME_MIN_LENGTH at h1; unfold NAME_MAX_LENGTH; omega
        simp [h1, h2]
    have herr : (ProfileInputPanel.validateName a.profilePanel).1.errorMessage ≠ "" := by
      unfold ProfileInputPanel.validateName
      by_cases h1 : (jsTrim a.profilePanel.displayName).length < NAME_MIN_LENGTH
      · simp [h1]
      · have h2 : (jsTrim a.profilePanel.displayName).length > NAME_MAX_LENGTH := by
          unfold NAME_MIN_LENGTH at h1; unfold NAME_MAX_LENGTH; omega
        simp [h1, h2]
    refine ⟨?_, ?_, ?_⟩
    · simp [AppFlow.submitProfileFlow, ProfileInputPanel.handleSubmit, hv]
    · simp [AppFlow.submitProfileFlow, ProfileInputPanel.handleSubmit, hv, h]
    · simpa [AppFlow.submitProfileFlow, ProfileInputPanel.handleSubmit, hv]
        using herr

/-- C2 witness: the two-character name "Al" fails validation; no network
call is issued and the state stays at profile-input. -/
theorem profile_name_validation_witness :
    ({ pendingCreateFlow with
        profilePanel := { displayName := "Al", errorMessage := "" } }.state
          = AppState.profileInput)
    ∧ (¬(3 ≤ (jsTrim "Al").length ∧ (jsTrim "Al").length ≤ 20) →
        (AppFlow.submitProfileFlow
          { pendingCreateFlow with
            profilePanel := { displayName := "Al", errorMessage := "" } }
          Outcome.ok).2 = false
        ∧ (AppFlow.submitProfileFlow
            { pendingCreateFlow with
              profilePanel := { displayName := "Al", errorMessage := "" } }
            Outcome.ok).1.state = AppState.profileInput
        ∧ (AppFlow.submitProfileFlow
            { pendingCreateFlow with
              profilePanel := { displayName := "Al", errorMessage := "" } }
            Outcome.ok).1.profilePanel.errorMessage ≠ "") :=
  ⟨rfl,
   (profile_name_validation
      { pendingCreateFlow with
        profilePanel := { displayName := "Al", errorMessage := "" } }
      Outcome.ok rfl).2⟩

/-- C4: `handleRaycast` considers exactly the buttons of currently
visible panels: a returned button belongs to the visible set and its
intersection distance is positive and minimal among every visible hit
(never an arbitrary one); whenever some visible button is hit, a button
is returned; as a side effect the returned button is recorded and
flagged as hovered, and the previously hovered button's hover flag is
reset whenever it is not the one returned. -/
theorem nearest_hit_raycast (s : UISystem) (dist : RayHits)
    (hpos : ∀ i d, dist i = some d → 0 < d) :
    (∀ b, (s.handleRaycast dist).2 = some b →
        b.id ∈ s.visibleButtonIds
        ∧ ∃ d, dist b.id = some d ∧ 0 < d
            ∧ ∀ j ∈ s.visibleButtonIds, ∀ e, dist j = some e → d ≤ e)
    ∧ ((∃ j ∈ s.visibleButtonIds, (dist j).isSome = true) →
        ∃ b, (s.handleRaycast dist).2 = some b)
    ∧ (∀ b, (s.handleRaycast dist).2 = some b →
        (s.handleRaycast dist).1.hoveredButton = some b.id
        ∧ b.isHovered = true
        ∧ UISystem.hoverSet (s.handleRaycast dist).1 b.id)
    ∧ (s.visibleButtonIds.isEmpty = false →
        ∀ h0, s.hoveredButton = some h0 →
          (∀ b, (s.handleRaycast dist).2 = some b → b.id ≠ h0) →
          UISystem.hoverCleared (s.handleRaycast dist).1 h0) := by
  cases hm : s.visibleButtonIds.isEmpty with
  | true =>
    have hre := UISystem.handleRaycast_empty s dist hm
    refine ⟨?_, ?_, ?_, ?_⟩
    · intro b hb; rw [hre] at hb; cases hb
    · rintro ⟨j, hj, -⟩
      rw [List.isEmpty_iff.mp hm] at hj
      cases hj
    · intro b hb; rw [hre] at hb; cases hb
    · intro hm2; cases hm2
  | false =>
    cases hh : (intersectObjects s.visibleButtonIds dist).head? with
    | none =>
      have hno := UISystem.handleRaycast_nohit s dist hm hh
      refine ⟨?_, ?_, ?_, ?_⟩
      · intro b hb; rw [hno.1] at hb; cases hb
      · rintro ⟨j, hj, hs⟩
        exact absurd (List.head?_eq_none_iff.mp hh)
          (intersectObjects_ne_nil _ dist j hj hs)
      · intro b hb; rw [hno.1] at hb; cases hb
      · intro _ h0 hhov _
        exact hno.2 h0 hhov
    | some hit =>
      obtain ⟨b0, hb0id, hr2, hrhov, hrset, hrclear⟩ :=
        UISystem.handleRaycast_hit s dist hit hm hh
      have hhit := intersectObjects_head?_min _ dist hit hh
      refine ⟨?_, ?_, ?_, ?_⟩
      · intro b hb
        rw [hr2] at hb
        injection hb with he
        have hbid : b.id = hit.1 := by rw [← he]; simpa using hb0id
        refine ⟨by rw [hbid]; exact hhit.1,
          hit.2, by rw [hbid]; exact hhit.2.1,
          hpos hit.1 hit.2 hhit.2.1, hhit.2.2⟩
      · intro _
        exact ⟨_, hr2⟩
      · intro b hb
        rw [hr2] at hb
        injection hb with he
        have hbid : b.id = hit.1 := by rw [← he]; simpa using hb0id
        refine ⟨by rw [hbid]; exact hrhov, by rw [← he], by rw [hbid]; exact hrset⟩
      · intro _ h0 hhov hbne
        by_cases hne : h0 = hit.1
        · exfalso
          apply hbne _ hr2
          rw [hne]
          simpa using hb0id
        · exact hrclear h0 hhov (fun he2 => hne he2)

/-- C4 witness: with the profile panel visible and a ray hitting the
name-input button at distance 1 and the submit button at distance 2, a
button is returned. -/
theorem nearest_hit_raycast_witness :
    ∃ b, (UISystem.handleRaycast pendingCreateFlow.ui
        (fun i => if i = "name-input" then some 1
          else if i = "submit-name" then some 2 else none)).2 = some b :=
  (nearest_hit_raycast pendingCreateFlow.ui
    (fun i => if i = "name-input" then some 1
      else if i = "submit-name" then some 2 else none)
    (by
      intro i d h
      dsimp only at h
      by_cases h1 : i = "name-input"
      · rw [if_pos h1] at h
        injection h with h2
        rw [← h2]; norm_num
      · rw [if_neg h1] at h
        by_cases h2 : i = "submit-name"
        · rw [if_pos h2] at h
          injection h with h3
          rw [← h3]; norm_num
        · rw [if_neg h2] at h; cases h)).2.1
    ⟨"name-input", by decide, by decide⟩

/-- C5: a button activation — an invocation of `handleTriggerPress` by
`processControllerInput` — occurs only on a rising edge of a source's
trigger: its trigger is pressed this frame and the per-source map of
last-known boolean state holds false for it; consequently, over any
sequence of frames throughout which a source's trigger stays pressed,
`handleTriggerPress` fires for that source at most once. -/
theorem trigger_rising_edge_single_activation :
    (∀ (ui : UISystem) (tm : TriggerMap) (fs : List XRSourceFrame) (sid : Nat),
      (processControllerInput ui tm fs).2.2.1 = some sid →
      ∃ s ∈ fs, s.sid = sid ∧ s.gamepad = some true ∧ tm.get sid = false)
    ∧ (∀ (ui : UISystem) (tm : TriggerMap)
        (frames : List (List XRSourceFrame)) (sid : Nat),
      (∀ fs ∈ frames, ∀ s ∈ fs, s.sid = sid → s.gamepad = some true) →
      countActivations sid (runCtl ui tm frames) ≤ 1) := by
  constructor
  · exact processCtl_act_some
  · intro ui tm frames sid hheld
    induction frames generalizing ui tm with
    | nil => simp [runCtl, countActivations]
    | cons fs rest ih =>
      have hrw : runCtl ui tm (fs :: rest) =
          (processControllerInput ui tm fs).2.2.1 ::
            runCtl (processControllerInput ui tm fs).1
              (processControllerInput ui tm fs).2.1 rest := rfl
      rw [hrw, countActivations_cons]
      by_cases hact : (processControllerInput ui tm fs).2.2.1 = some sid
      · rw [if_pos hact]
        have h1 := processCtl_act_sets ui tm fs sid hact
        have h0 := runCtl_count_zero (processControllerInput ui tm fs).1
          (processControllerInput ui tm fs).2.1 rest sid
          (fun fs2 hfs2 => hheld fs2 (List.mem_cons_of_mem fs hfs2)) h1
        omega
      · rw [if_neg hact]
        have := ih (processControllerInput ui tm fs).1
          (processControllerInput ui tm fs).2.1
          (fun fs2 hfs2 => hheld fs2 (List.mem_cons_of_mem fs hfs2))
        omega

/-- C5 witness: a controller holding its trigger across two consecutive
frames with the profile panel visible activates at most once. -/
theorem trigger_rising_edge_witness :
    (∀ fs ∈ [[heldSourceFrame], [heldSourceFrame]],
      ∀ s ∈ fs, s.sid = 3 → s.gamepad = some true)
    ∧ countActivations 3
        (runCtl pendingCreateFlow.ui [] [[heldSourceFrame], [heldSourceFrame]]) ≤ 1 := by
  have hproof : ∀ fs ∈ [[heldSourceFrame], [heldSourceFrame]],
      ∀ s ∈ fs, s.sid = 3 → s.gamepad = some true := by
    intro fs hfs s hs _
    have hfse : fs = [heldSourceFrame] := by
      rcases List.mem_cons.mp hfs with he | he2
      · exact he
      · rcases List.mem_cons.mp he2 with he3 | he4
        · exact he3
        · cases he4
    subst hfse
    have hse : s = heldSourceFrame := by
      rcases List.mem_cons.mp hs with he | he2
      · exact he
      · cases he2
    subst hse
    rfl
  exact ⟨hproof,
    trigger_rising_edge_single_activation.2 pendingCreateFlow.ui []
      [[heldSourceFrame], [heldSourceFrame]] 3 hproof⟩

/-- C3: every documented transition that shows a main panel
(`showProfileInput`, `showRoomSelection`, `showSongSearch` with either
outcome) hides all panels before showing one, and entering playing-song
(`handleSongSelect`) only hides: after any of these transitions at most
one main panel is flagged visible (the transient loading and error
overlays are separate objects, outside the panel registry). -/
theorem main_panel_exclusivity (a : AppFlow) (ok : Bool) (yid : String) :
    a.showProfileInput.ui.mainPanelVisibleCount ≤ 1
    ∧ a.showRoomSelection.ui.mainPanelVisibleCount ≤ 1
    ∧ (a.showSongSearch ok).ui.mainPanelVisibleCount ≤ 1
    ∧ (a.ui.mainPanelVisibleCount ≤ 1 →
        (a.handleSongSelect yid).ui.mainPanelVisibleCount ≤ 1) := by
  refine ⟨?_, ?_, ?_, ?_⟩
  · simpa [AppFlow.showProfileInput] using
      UISystem.mainCount_hideAll_show a.ui .profileInputP
  · simpa [AppFlow.showRoomSelection] using
      UISystem.mainCount_hideAll_show a.ui .roomSelectionP
  · cases ok with
    | true =>
      simpa [AppFlow.showSongSearch, AppFlow.showLoading, AppFlow.hideLoading]
        using UISystem.mainCount_hideAll_show a.ui .songSearchP
    | false =>
      simp [AppFlow.showSongSearch, AppFlow.showLoading, AppFlow.hideLoading,
        AppFlow.showError, UISystem.mainCount_hideAll]
  · intro h
    calc (a.handleSongSelect yid).ui.mainPanelVisibleCount
        = (a.ui.hidePanel .songSearchP).mainPanelVisibleCount := by
          simp [AppFlow.handleSongSelect]
      _ ≤ a.ui.mainPanelVisibleCount := UISystem.mainCount_hidePanel_le a.ui _
      _ ≤ 1 := h

/-- C3 witness: selecting a song from the concrete profile-input state
(one main panel visible) leaves at most one main panel visible. -/
theorem main_panel_exclusivity_witness :
    pendingCreateFlow.ui.mainPanelVisibleCount ≤ 1
    ∧ (pendingCreateFlow.handleSongSelect "yid").ui.mainPanelVisibleCount ≤ 1 :=
  ⟨by decide,
   (main_panel_exclusivity pendingCreateFlow true "yid").2.2.2 (by decide)⟩

/-- C6 counterexample: in the concrete state reached while
`handleProfileSubmit` awaits the network call — loading overlay visible,
profile-input panel still shown — a desktop mouse click whose ray hits
the submit button invokes its callback: panel input leaks through while
the loading indicator is visible, because the mouse handlers check only
`hasVisiblePanel`, not the loading flag. -/
theorem loading_overlay_click_leak_counterexample :
    pendingCreateFlow.loadingVisible = true
    ∧ (pendingCreateFlow.onMouseClick submitRay).2 = ["submit-name"] := by
  exact ⟨rfl, by decide⟩

/-- C6 (amended): the frame loop suppresses all panel input while the
loading overlay is visible — `update` routes no controller input,
computes no hover and invokes no callback; the desktop mouse handlers,
however, gate only on some panel being visible, so while no panel is
visible they compute no hover and invoke no callback, but a click during
loading with a panel still shown can reach a button. -/
theorem loading_overlay_input_suppression :
    (∀ (a : AppFlow) (tm : TriggerMap) (inp : AppFlow.FrameInput),
      a.loadingVisible = true → a.update tm inp = (a, tm, []))
    ∧ (∀ (a : AppFlow) (d : RayHits),
      a.ui.hasVisiblePanel = false →
        a.onMouseClick d = (a, []) ∧ a.onMouseMove d = a) := by
  constructor
  · intro a tm inp h
    simp [AppFlow.update, h]
  · intro a d h
    constructor
    · simp [AppFlow.onMouseClick, h]
    · simp [AppFlow.onMouseMove, h]

/-- C6 witness: with the loading overlay visible the frame update routes
nothing, and with every panel hidden a mouse click does nothing. -/
theorem loading_overlay_input_suppression_witness :
    (pendingCreateFlow.loadingVisible = true
      ∧ pendingCreateFlow.update [] { xrActive := true, sources := [] }
          = (pendingCreateFlow, [], []))
    ∧ ({ pendingCreateFlow with
          ui := pendingCreateFlow.ui.hideAllPanels }.ui.hasVisiblePanel = false
      ∧ AppFlow.onMouseClick
          { pendingCreateFlow with ui := pendingCreateFlow.ui.hideAllPanels }
          submitRay
          = ({ pendingCreateFlow with ui := pendingCreateFlow.ui.hideAllPanels }, [])) :=
  ⟨⟨rfl,
    loading_overlay_input_suppression.1 pendingCreateFlow []
      { xrActive := true, sources := [] } rfl⟩,
   ⟨by decide,
    (loading_overlay_input_suppression.2
      { pendingCreateFlow with ui := pendingCreateFlow.ui.hideAllPanels }
      submitRay (by decide)).1⟩⟩

end KV
